import Mathlib

/-!
Shallow embedding of the `eventual` package (src/eventual.go): a single-slot
eventual value with waiter channels, expiration, and get-or-populate.

All cell operations in the source run under one exclusive mutex, so each
operation is embedded as a pure function on the cell state.  Delivery of a
value to a parked waiter channel (`waiter <- i`) is recorded in an explicit
list of `(waiter id, value)` deliveries.  `time.Time` is modelled as
`Option Nat` (nanoseconds), with `none` standing for the zero instant
`time.Time{}` (for which `IsZero()` holds); `t.After(now)` becomes `now < t`.
Context cancellation in `Get`, and the `select` between waiter delivery and
cancellation, are modelled by a `Wait` parameter giving the outcome of the
select; the error type `E` stands for Go `error` values (`ctx.Err()`, getter
errors).
-/

namespace Eventual

/-- The constant `tenYears = 10 * 365 * 24 * time.Hour`, in nanoseconds
(`time.Duration` units). -/
def tenYears : Nat := 10 * 365 * 24 * (60 * 60 * 1000000000)

/-- The state of `value[V]` from src/eventual.go (the mutex `m` is implicit
in the sequential embedding; waiter channels are identified by `Nat` ids). -/
structure Cell (V : Type) where
  v : V
  zeroValue : V
  defaultValue : V
  expiration : Option Nat
  set : Bool
  waiters : List Nat
  deriving Repr, DecidableEq

/-- `NewValue[V]()`: the zero `value[V]` struct.  `z` is the zero value of
the Go type `V`. -/
def NewValue {V : Type} (z : V) : Cell V :=
  ⟨z, z, z, none, false, []⟩

/-- `WithDefault(defaultValue)`: zero struct except for `defaultValue`. -/
def WithDefault {V : Type} (z d : V) : Cell V :=
  ⟨z, z, d, none, false, []⟩

/-- The freshness test `v.expiration.IsZero() || v.expiration.After(time.Now())`
used by `Get` and `GetOrSetExpiring`. -/
def fresh {V : Type} (c : Cell V) (now : Nat) : Bool :=
  match c.expiration with
  | none => true
  | some t => decide (now < t)

/-- The guard `v.set` plus the nested freshness test: the value is usable on
the fast path iff the cell is set and fresh. -/
def available {V : Type} (c : Cell V) (now : Nat) : Bool :=
  c.set && fresh c now

/-- Result of a (possibly notifying) set operation: the new cell state and
the list of `(waiter id, value)` channel sends performed. -/
structure SetResult (V : Type) where
  cell : Cell V
  deliveries : List (Nat × V)
  deriving Repr, DecidableEq

/-- `doSetExpiring(i, t)`: always overwrite `v.v`; if `!v.set`, send `i` to
every parked waiter, clear the waiter list, record `t` as expiration and set
`v.set = true`. -/
def doSetExpiring {V : Type} (c : Cell V) (i : V) (t : Option Nat) : SetResult V :=
  let c1 : Cell V := { c with v := i }
  if c.set then
    ⟨c1, []⟩
  else
    ⟨{ c1 with waiters := [], expiration := t, set := true },
     c.waiters.map (fun w => (w, i))⟩

/-- `SetExpiring(i, t)`: `doSetExpiring` under the lock. -/
def SetExpiring {V : Type} (c : Cell V) (i : V) (t : Option Nat) : SetResult V :=
  doSetExpiring c i t

/-- `Set(i)` = `SetExpiring(i, time.Now().Add(tenYears))`. -/
def Set {V : Type} (c : Cell V) (i : V) (now : Nat) : SetResult V :=
  SetExpiring c i (some (now + tenYears))

/-- `Reset()`: value to zero value, expiration to the zero instant,
`set = false`; the waiter list is not touched. -/
def Reset {V : Type} (c : Cell V) : Cell V :=
  { c with v := c.zeroValue, expiration := none, set := false }

/-- Outcome of the `select` in `Get`'s slow path: either the waiter channel
delivered a value, or the context's done channel fired with `ctx.Err() = e`. -/
inductive Wait (V E : Type) where
  | delivered (x : V)
  | cancelled (e : E)
  deriving Repr, DecidableEq

/-- Result of `Get`: the cell state after the operation (including any
waiter registration) and the returned `(V, error)` pair. -/
structure GetResult (V E : Type) where
  cell : Cell V
  value : V
  err : Option E
  deriving Repr, DecidableEq

/-- `Get(ctx)`: fast path returns the stored value when set and fresh;
otherwise a waiter channel `wid` is appended and the select outcome `w`
decides the result.  On cancellation, `defaultValue` is returned with no
error when it differs from `zeroValue`, else with `ctx.Err()`. -/
def Get {V E : Type} [DecidableEq V] (c : Cell V) (now : Nat) (wid : Nat)
    (w : Wait V E) : GetResult V E :=
  if c.set && fresh c now then
    ⟨c, c.v, none⟩
  else
    let c1 : Cell V := { c with waiters := c.waiters ++ [wid] }
    match w with
    | .delivered x => ⟨c1, x, none⟩
    | .cancelled e =>
      if c.defaultValue ≠ c.zeroValue then
        ⟨c1, c.defaultValue, none⟩
      else
        ⟨c1, c.defaultValue, some e⟩

/-- Result of `GetOrSetExpiring`: new cell, channel sends, and the returned
`(V, error)` pair. -/
structure GetOrSetResult (V E : Type) where
  cell : Cell V
  deliveries : List (Nat × V)
  value : V
  err : Option E
  deriving Repr, DecidableEq

/-- `GetOrSetExpiring(t, getter)`: fast path as in `Get`; otherwise the
getter runs under the lock (its pure outcome is `g`); on error the cell is
untouched and `(zeroValue, err)` is returned; on success the value is
committed via `doSetExpiring`. -/
def GetOrSetExpiring {V E : Type} (c : Cell V) (now : Nat) (t : Option Nat)
    (g : Except E V) : GetOrSetResult V E :=
  if c.set && fresh c now then
    ⟨c, [], c.v, none⟩
  else
    match g with
    | .error e => ⟨c, [], c.zeroValue, some e⟩
    | .ok i =>
      let r := doSetExpiring c i t
      ⟨r.cell, r.deliveries, i, none⟩

/-- One operation of a sequential history on a cell.  `getRegister` is a
`Get` that reaches the slow path and parks waiter `wid` (its select has not
yet resolved); `getOrSet` is a `GetOrSetExpiring` call whose getter outcome,
if invoked, is `g`. -/
inductive Op (V E : Type) where
  | set (i : V) (now : Nat)
  | setExpiring (i : V) (t : Option Nat)
  | reset
  | getRegister (wid : Nat) (now : Nat)
  | getOrSet (now : Nat) (t : Option Nat) (g : Except E V)
  deriving Repr

/-- Whether an operation is a `Reset`. -/
def Op.isReset {V E : Type} : Op V E → Bool
  | .reset => true
  | _ => false

/-- Observables of running a history: final cell, all channel sends in
order, the number of getter invocations, the number of first-population
events (`set` transitioning false to true), and the number of
`GetOrSetExpiring` calls that found the value unavailable. -/
structure RunResult (V : Type) where
  cell : Cell V
  deliveries : List (Nat × V)
  invocations : Nat
  firstPops : Nat
  misses : Nat
  deriving Repr

/-- One step of the history semantics, following the source operations. -/
def step {V E : Type} (c : Cell V) : Op V E → RunResult V
  | .set i now =>
    let r := Set c i now
    ⟨r.cell, r.deliveries, 0, if c.set then 0 else 1, 0⟩
  | .setExpiring i t =>
    let r := SetExpiring c i t
    ⟨r.cell, r.deliveries, 0, if c.set then 0 else 1, 0⟩
  | .reset => ⟨Reset c, [], 0, 0, 0⟩
  | .getRegister wid now =>
    if c.set && fresh c now then ⟨c, [], 0, 0, 0⟩
    else ⟨{ c with waiters := c.waiters ++ [wid] }, [], 0, 0, 0⟩
  | .getOrSet now t g =>
    if c.set && fresh c now then ⟨c, [], 0, 0, 0⟩
    else
      match g with
      | .error _ => ⟨c, [], 1, 0, 1⟩
      | .ok i =>
        let r := doSetExpiring c i t
        ⟨r.cell, r.deliveries, 1, if c.set then 0 else 1, 1⟩

/-- Run a whole history, accumulating the observables. -/
def run {V E : Type} (c : Cell V) : List (Op V E) → RunResult V
  | [] => ⟨c, [], 0, 0, 0⟩
  | op :: rest =>
    let r1 := step c op
    let r2 := run r1.cell rest
    ⟨r2.cell, r1.deliveries ++ r2.deliveries, r1.invocations + r2.invocations,
     r1.firstPops + r2.firstPops, r1.misses + r2.misses⟩

/-! Concrete cells used by the witnesses (value type `Nat`, zero value `0`,
error type `Nat`). -/

/-- An unpopulated cell with two parked waiters. -/
def cellUnpop : Cell Nat :=
  { v := 0, zeroValue := 0, defaultValue := 0, expiration := none,
    set := false, waiters := [1, 2] }

/-- A populated, never-expiring cell holding `42`, with no waiters. -/
def cellFresh : Cell Nat :=
  { v := 42, zeroValue := 0, defaultValue := 0, expiration := none,
    set := true, waiters := [] }

/-- A populated cell holding `11` that expired at instant `2`, with one
parked waiter and a configured default of `5`. -/
def cellStale : Cell Nat :=
  { v := 11, zeroValue := 0, defaultValue := 5, expiration := some 2,
    set := true, waiters := [3] }

/-- Counting helper: mapping each waiter id `x` to the send `(x, i)`
preserves multiplicities. -/
theorem count_map_pair {V : Type} [DecidableEq V] (l : List Nat) (i : V)
    (w : Nat) : ((l.map fun x => (x, i)).count (w, i)) = l.count w := by
  induction l with
  | nil => rfl
  | cons a l ih =>
    by_cases hw : w = a
    · subst hw
      simp [List.count_cons, ih]
    · simp [List.count_cons, ih, hw, Prod.ext_iff]

/-- C1: on an unpopulated cell, `SetExpiring(v, exp)` stores `v`, sends `v`
to every parked waiter exactly once, clears the waiter list, records `exp`,
and sets the populated flag; the commit of a successful `GetOrSetExpiring`
does exactly the same. -/
theorem claim_C1 {V E : Type} [DecidableEq V] (c : Cell V) (i : V)
    (t : Option Nat) (now : Nat) (h : c.set = false) :
    SetExpiring c i t =
      ⟨{ c with v := i, waiters := [], expiration := t, set := true },
        c.waiters.map (fun w => (w, i))⟩ ∧
    (∀ w : Nat, (SetExpiring c i t).deliveries.count (w, i) = c.waiters.count w) ∧
    GetOrSetExpiring (E := E) c now t (Except.ok i) =
      ⟨{ c with v := i, waiters := [], expiration := t, set := true },
        c.waiters.map (fun w => (w, i)), i, none⟩ := by
  refine ⟨?_, ?_, ?_⟩
  · simp [SetExpiring, doSetExpiring, h]
  · intro w
    simp only [SetExpiring, doSetExpiring, h]
    simp only [Bool.false_eq_true, if_false]
    exact count_map_pair c.waiters i w
  · simp [GetOrSetExpiring, doSetExpiring, h]

/-- Witness for C1 at a concrete unpopulated cell with waiters 1 and 2. -/
theorem claim_C1_witness :
    cellUnpop.set = false ∧
    (SetExpiring cellUnpop 7 (some 5)).deliveries = [(1, 7), (2, 7)] ∧
    (SetExpiring cellUnpop 7 (some 5)).cell.set = true := by
  have h := claim_C1 (E := Nat) cellUnpop 7 (some 5) 0 rfl
  refine ⟨rfl, ?_, ?_⟩
  · rw [h.1]; rfl
  · rw [h.1]

/-- C2: on a populated, fresh cell, `Get` returns the stored value with no
error and leaves the cell unchanged (no waiter is registered), for every
select outcome — in particular for an already-cancelled signal. -/
theorem claim_C2 {V E : Type} [DecidableEq V] (c : Cell V) (now : Nat)
    (h1 : c.set = true) (h2 : fresh c now = true) (wid : Nat) (w : Wait V E) :
    Get c now wid w = ⟨c, c.v, none⟩ := by
  simp [Get, h1, h2]

/-- Witness for C2: a fresh cell holding 42, read with a cancelled signal. -/
theorem claim_C2_witness :
    cellFresh.set = true ∧ fresh cellFresh 100 = true ∧
    Get cellFresh 100 9 (Wait.cancelled (0 : Nat)) = ⟨cellFresh, 42, none⟩ :=
  ⟨rfl, rfl, claim_C2 cellFresh 100 rfl rfl 9 (Wait.cancelled 0)⟩

/-- C3: on a cell whose value is not available, a `Get` resolved by
cancellation registers its waiter and returns the configured default with no
error when that default differs from the zero value, and otherwise returns
the zero value together with the cancellation error. -/
theorem claim_C3 {V E : Type} [DecidableEq V] (c : Cell V) (now : Nat)
    (h : (c.set && fresh c now) = false) (wid : Nat) (e : E) :
    (c.defaultValue ≠ c.zeroValue →
      Get c now wid (Wait.cancelled e) =
        ⟨{ c with waiters := c.waiters ++ [wid] }, c.defaultValue, none⟩) ∧
    (c.defaultValue = c.zeroValue →
      Get c now wid (Wait.cancelled e) =
        ⟨{ c with waiters := c.waiters ++ [wid] }, c.zeroValue, some e⟩) := by
  constructor
  · intro hne
    simp [Get, h, hne]
  · intro heq
    simp [Get, h, heq]

/-- Witness for C3, covering both branches: a cell with default 5 returns
the default with no error; a `NewValue` cell returns zero with the error. -/
theorem claim_C3_witness :
    ((WithDefault 0 5).set && fresh (WithDefault 0 5) 0) = false ∧
    Get (WithDefault 0 5) 0 1 (Wait.cancelled (7 : Nat)) =
      ⟨{ WithDefault 0 5 with waiters := [1] }, 5, none⟩ ∧
    Get (NewValue (0 : Nat)) 0 1 (Wait.cancelled (7 : Nat)) =
      ⟨{ NewValue 0 with waiters := [1] }, 0, some 7⟩ := by
  refine ⟨rfl, ?_, ?_⟩
  · exact (claim_C3 (WithDefault 0 5) 0 rfl 1 7).1 (by decide)
  · exact (claim_C3 (NewValue 0) 0 rfl 1 7).2 rfl

/-- C4: on an already-populated cell (fresh or stale), `Set`, `SetExpiring`
and a successful `GetOrSetExpiring` change at most the stored value: the
expiration, the populated flag and the waiter list are unchanged and no
waiter receives a value. -/
theorem claim_C4 {V E : Type} (c : Cell V) (h : c.set = true) :
    (∀ (i : V) (t : Option Nat), doSetExpiring c i t = ⟨{ c with v := i }, []⟩) ∧
    (∀ (i : V) (t : Option Nat), SetExpiring c i t = ⟨{ c with v := i }, []⟩) ∧
    (∀ (i : V) (now : Nat), Set c i now = ⟨{ c with v := i }, []⟩) ∧
    (∀ (now : Nat) (t : Option Nat) (i : V),
      (GetOrSetExpiring (E := E) c now t (Except.ok i)).cell.expiration =
        c.expiration ∧
      (GetOrSetExpiring (E := E) c now t (Except.ok i)).cell.set = true ∧
      (GetOrSetExpiring (E := E) c now t (Except.ok i)).cell.waiters =
        c.waiters ∧
      (GetOrSetExpiring (E := E) c now t (Except.ok i)).deliveries = [] ∧
      (GetOrSetExpiring (E := E) c now t (Except.ok i)).err = none) := by
  refine ⟨?_, ?_, ?_, ?_⟩
  · intro i t; simp [doSetExpiring, h]
  · intro i t; simp [SetExpiring, doSetExpiring, h]
  · intro i now; simp [Set, SetExpiring, doSetExpiring, h]
  · intro now t i
    by_cases hf : fresh c now = true
    · simp [GetOrSetExpiring, h, hf]
    · simp only [Bool.not_eq_true] at hf
      simp [GetOrSetExpiring, doSetExpiring, h, hf]

/-- Witness for C4 at a populated stale cell with a parked waiter. -/
theorem claim_C4_witness :
    cellStale.set = true ∧
    SetExpiring cellStale 9 (some 50) = ⟨{ cellStale with v := 9 }, []⟩ ∧
    (GetOrSetExpiring (E := Nat) cellStale 10 (some 50)
      (Except.ok 9)).cell.waiters = [3] := by
  have h := claim_C4 (E := Nat) cellStale rfl
  refine ⟨rfl, h.2.1 9 (some 50), ?_⟩
  rw [(h.2.2.2 10 (some 50) 9).2.2.1]; rfl

/-- C5: `GetOrSetExpiring` on a populated fresh cell returns the cached
value with no error, independently of the getter (which is never invoked);
on an unavailable cell with a succeeding getter it commits the produced
value through the `SetExpiring` first-population logic and returns it with
no error. -/
theorem claim_C5 {V E : Type} (c : Cell V) (now : Nat) (t : Option Nat) :
    ((c.set && fresh c now) = true →
      (∀ g : Except E V, GetOrSetExpiring c now t g = ⟨c, [], c.v, none⟩) ∧
      (∀ g : Except E V, (step c (Op.getOrSet now t g)).invocations = 0)) ∧
    ((c.set && fresh c now) = false →
      ∀ i : V, GetOrSetExpiring (E := E) c now t (Except.ok i) =
        ⟨(SetExpiring c i t).cell, (SetExpiring c i t).deliveries, i, none⟩) := by
  constructor
  · intro h
    exact ⟨fun g => by simp [GetOrSetExpiring, h],
           fun g => by simp [step, h]⟩
  · intro h i
    simp [GetOrSetExpiring, SetExpiring, h]

/-- Witness for C5: fresh cell ignores even a failing getter; the stale
cell commits the produced value. -/
theorem claim_C5_witness :
    (cellFresh.set && fresh cellFresh 0) = true ∧
    GetOrSetExpiring cellFresh 0 (some 9) (Except.error (3 : Nat)) =
      ⟨cellFresh, [], 42, none⟩ ∧
    (cellStale.set && fresh cellStale 10) = false ∧
    GetOrSetExpiring (E := Nat) cellStale 10 (some 50) (Except.ok 9) =
      ⟨(SetExpiring cellStale 9 (some 50)).cell,
        (SetExpiring cellStale 9 (some 50)).deliveries, 9, none⟩ := by
  refine ⟨rfl, ?_, rfl, ?_⟩
  · exact ((claim_C5 cellFresh 0 (some 9)).1 rfl).1 (Except.error 3)
  · exact (claim_C5 cellStale 10 (some 50)).2 rfl 9

/-- C6: when the value is unavailable and the getter fails with `e`,
`GetOrSetExpiring` returns the zero value (not the configured default)
together with `e`, and the whole cell state is untouched. -/
theorem claim_C6 {V E : Type} (c : Cell V) (now : Nat) (t : Option Nat)
    (e : E) (h : (c.set && fresh c now) = false) :
    GetOrSetExpiring c now t (Except.error e) = ⟨c, [], c.zeroValue, some e⟩ := by
  simp [GetOrSetExpiring, h]

/-- Witness for C6 on the stale cell, which has default 5 and zero value 0:
the error path returns 0, not 5, and changes nothing. -/
theorem claim_C6_witness :
    (cellStale.set && fresh cellStale 10) = false ∧
    GetOrSetExpiring cellStale 10 (some 50) (Except.error (7 : Nat)) =
      ⟨cellStale, [], 0, some 7⟩ :=
  ⟨rfl, claim_C6 cellStale 10 (some 50) 7 rfl⟩

/-- In every single step, the getter is invoked exactly as often as a
`GetOrSetExpiring` call finds the value unavailable. -/
theorem step_invocations_eq_misses {V E : Type} (c : Cell V) (op : Op V E) :
    (step c op).invocations = (step c op).misses := by
  cases op with
  | set i now => rfl
  | setExpiring i t => rfl
  | reset => rfl
  | getRegister wid now =>
    by_cases h : (c.set && fresh c now) = true <;> simp [step, h]
  | getOrSet now t g =>
    by_cases h : (c.set && fresh c now) = true
    · simp [step, h]
    · cases g <;> simp [step, h]

/-- C7 (amended): over any history, the total number of getter invocations
equals the number of `GetOrSetExpiring` calls that found the value
unavailable — not the number of first-population events, which it can
exceed. -/
theorem claim_C7 {V E : Type} (c : Cell V) (ops : List (Op V E)) :
    (run c ops).invocations = (run c ops).misses := by
  induction ops generalizing c with
  | nil => rfl
  | cons op rest ih =>
    simp [run, step_invocations_eq_misses, ih]

/-- Counterexample to C7 as stated: one `GetOrSetExpiring` call with a
failing getter on a new cell invokes the getter once while no
first-population event occurs. -/
theorem claim_C7_counterexample :
    ¬ ((run (NewValue (0 : Nat))
          ([Op.getOrSet 0 none (Except.error 0)] : List (Op Nat Nat))).invocations ≤
        (run (NewValue (0 : Nat))
          ([Op.getOrSet 0 none (Except.error 0)] : List (Op Nat Nat))).firstPops) := by
  decide

/-- C8: `Reset` restores the newly-constructed state (zero value, no
expiration, unpopulated) while leaving the waiter list untouched, and the
next first population delivers to exactly the waiters parked before the
reset. -/
theorem claim_C8 {V : Type} (c : Cell V) (i : V) (t : Option Nat) :
    Reset c = { c with v := c.zeroValue, expiration := none, set := false } ∧
    (Reset c).waiters = c.waiters ∧
    (doSetExpiring (Reset c) i t).deliveries = c.waiters.map (fun w => (w, i)) := by
  refine ⟨rfl, rfl, ?_⟩
  simp [doSetExpiring, Reset]

/-- While the populated flag is true, any reset-free history performs no
waiter delivery at all, and the flag stays true. -/
theorem run_populated_no_deliveries {V E : Type} (c : Cell V)
    (ops : List (Op V E)) (hset : c.set = true)
    (hops : ∀ op ∈ ops, op.isReset = false) :
    (run c ops).deliveries = [] ∧ (run c ops).cell.set = true := by
  induction ops generalizing c with
  | nil => exact ⟨rfl, hset⟩
  | cons op rest ih =>
    have hstep : (step c op).deliveries = [] ∧ (step c op).cell.set = true := by
      cases op with
      | set i now => simp [step, Set, SetExpiring, doSetExpiring, hset]
      | setExpiring i t => simp [step, SetExpiring, doSetExpiring, hset]
      | reset =>
        have := hops _ (List.mem_cons_self _ _)
        simp [Op.isReset] at this
      | getRegister wid now =>
        by_cases hf : fresh c now = true <;> simp [step, hset, hf]
      | getOrSet now t g =>
        by_cases hf : fresh c now = true
        · simp [step, hset, hf]
        · cases g <;> simp [step, doSetExpiring, hset, hf]
    have ih2 := ih (step c op).cell hstep.2
      (fun o ho => hops o (List.mem_cons_of_mem _ ho))
    simp [run, hstep.1, ih2.1, ih2.2]

/-- C9: a waiter registered by `Get` on a populated-but-expired cell is
never delivered a value by any reset-free continuation of the history:
only its own cancellation, or a `Reset` followed by a new first
population, can release it. -/
theorem claim_C9 {V E : Type} [DecidableEq V] (c : Cell V) (now wid : Nat)
    (w : Wait V E) (ops : List (Op V E)) (hset : c.set = true)
    (hstale : fresh c now = false) (hops : ∀ op ∈ ops, op.isReset = false) :
    wid ∈ (Get c now wid w).cell.waiters ∧
    (run (Get c now wid w).cell ops).deliveries = [] := by
  have hcell : (Get c now wid w).cell = { c with waiters := c.waiters ++ [wid] } := by
    cases w with
    | delivered x => simp [Get, hstale]
    | cancelled e =>
      simp only [Get, hstale, Bool.and_false, Bool.false_eq_true, if_false]
      split <;> rfl
  refine ⟨?_, ?_⟩
  · rw [hcell]; simp
  · rw [hcell]
    exact (run_populated_no_deliveries { c with waiters := c.waiters ++ [wid] }
      ops hset hops).1

/-- Witness for C9: a waiter parks on the stale cell and a reset-free
history of sets and get-or-sets delivers nothing. -/
theorem claim_C9_witness :
    cellStale.set = true ∧ fresh cellStale 10 = false ∧
    (9 ∈ (Get cellStale 10 9 (Wait.cancelled (0 : Nat))).cell.waiters ∧
      (run (Get cellStale 10 9 (Wait.cancelled (0 : Nat))).cell
        ([Op.set 5 0, Op.setExpiring 6 none, Op.getOrSet 0 none (Except.ok 7),
          Op.getRegister 4 0] : List (Op Nat Nat))).deliveries = []) := by
  refine ⟨rfl, rfl, ?_⟩
  exact claim_C9 cellStale 10 9 (Wait.cancelled 0) _ rfl rfl (by decide)

/-- C10: a first population with an expiration already in the past still
delivers the value to every parked waiter — such a waiter's `Get` returns
the value with no error — while the committed value is immediately
unavailable to any subsequent freshness check at the same instant. -/
theorem claim_C10 {V E : Type} [DecidableEq V] (c : Cell V) (i : V)
    (t now : Nat) (h : c.set = false) (hpast : t ≤ now) :
    (doSetExpiring c i (some t)).deliveries = c.waiters.map (fun w => (w, i)) ∧
    (∀ wid n : Nat, Get (E := E) c n wid (Wait.delivered i) =
      ⟨{ c with waiters := c.waiters ++ [wid] }, i, none⟩) ∧
    (doSetExpiring c i (some t)).cell.set = true ∧
    available (doSetExpiring c i (some t)).cell now = false := by
  refine ⟨?_, ?_, ?_, ?_⟩
  · simp [doSetExpiring, h]
  · intro wid n
    simp [Get, h]
  · simp [doSetExpiring, h]
  · simp [available, doSetExpiring, fresh, h]
    omega

/-- Witness for C10: first population of the two-waiter cell with an
expiration of 2, at instant 10. -/
theorem claim_C10_witness :
    cellUnpop.set = false ∧ (2 : Nat) ≤ 10 ∧
    ((doSetExpiring cellUnpop 7 (some 2)).deliveries = [(1, 7), (2, 7)] ∧
      Get (E := Nat) cellUnpop 10 4 (Wait.delivered 7) =
        ⟨{ cellUnpop with waiters := [1, 2, 4] }, 7, none⟩ ∧
      available (doSetExpiring cellUnpop 7 (some 2)).cell 10 = false) := by
  have h := claim_C10 (E := Nat) cellUnpop 7 2 10 rfl (by decide)
  refine ⟨rfl, by decide, ?_, ?_, h.2.2.2⟩
  · rw [h.1]; rfl
  · exact h.2.1 4 10

end Eventual
